import Mathlib

/-!
Verification of the kohuhu arbitrage engine against its specification.

This file gives a shallow embedding, in Lean 4, of the parts of the kohuhu
code base that the checked claims are about, together with theorems settling
those claims.

Conventions of the embedding:

* Python `Decimal` values are modelled as `ℚ`.  The source keeps exact
  decimal semantics on all pricing paths, and `Decimal.quantize` calls are
  modelled by explicit floor-based rounding functions below.
* Fallible code (Python `raise`) is modelled with `Except String` or with an
  explicit `err : Option String` field; the string is an abbreviation of the
  exception message raised at the corresponding source line.
* Python object identity (`id(action)`) is modelled by pairing an action
  with a `Nat` identity where identity matters (the Gemini order-event
  handler).
* The action status enum is written `CreateOrder.Status` in some places of
  the source and `Action.Status` in others; both stand for the same three
  values PENDING / SUCCESS / FAILED and are modelled by the single type
  `ActionStatus`.
* `CancelOrder` objects in the source acquire a `status` attribute only when
  a venue client tags them; the embedding gives the field the value PENDING
  at creation.
-/

namespace Kohuhu

/-! ## currency.py -/

/-- From currency.py: `round_to_cents` quantizes to 2 decimal places in
ROUND_HALF_UP mode (ties away from zero). -/
def round_to_cents (x : ℚ) : ℚ :=
  if 0 ≤ x then (⌊x * 100 + 1/2⌋ : ℚ) / 100 else -((⌊-x * 100 + 1/2⌋ : ℚ) / 100)

/-- From currency.py: `round_down_to_cents` quantizes to 2 decimal places in
ROUND_DOWN mode (toward zero). -/
def round_down_to_cents (x : ℚ) : ℚ :=
  if 0 ≤ x then (⌊x * 100⌋ : ℚ) / 100 else -((⌊-x * 100⌋ : ℚ) / 100)

/-- From arbitrage.py `_create_bid_limit_order`: `quantize(Decimal("0.001"),
ROUND_DOWN)`, i.e. truncation toward zero at 3 decimal places. -/
def quantize_three_down (x : ℚ) : ℚ :=
  if 0 ≤ x then (⌊x * 1000⌋ : ℚ) / 1000 else -((⌊-x * 1000⌋ : ℚ) / 1000)

/-! ## Core data model (exchanges.py) -/

/-- Order.Side from exchanges.py. -/
inductive Side where
  | ASK
  | BID
deriving DecidableEq, Repr

/-- Order.Type from exchanges.py. -/
inductive OrderType where
  | LIMIT
  | MARKET
deriving DecidableEq, Repr

/-- Order.Status from exchanges.py. -/
inductive OrderStatus where
  | OPEN
  | CLOSED
  | CANCELLED
deriving DecidableEq, Repr

/-- CreateOrder.Status from exchanges.py (PENDING / SUCCESS / FAILED).  The
source also writes `Action.Status` for the same three values. -/
inductive ActionStatus where
  | PENDING
  | SUCCESS
  | FAILED
deriving DecidableEq, Repr

/-- An order as kept by the strategy and the venue clients (exchanges.py
`Order`).  Only the fields the verified code paths read are modelled. -/
structure Order where
  order_id : String
  price : ℚ
  amount : ℚ
  filled : ℚ
  status : OrderStatus
deriving DecidableEq, Repr

/-- A price level of one side of an order book.  The source hands levels to
the strategy as objects with `price` and `quantity` attributes. -/
structure Quote where
  price : ℚ
  quantity : ℚ
deriving DecidableEq, Repr

/-- exchanges.py `CreateOrder`: the action of creating an order. -/
structure CreateOrder where
  exchange : String
  side : Side
  type : OrderType
  amount : ℚ
  price : Option ℚ
  order : Option Order
  status : ActionStatus
deriving DecidableEq, Repr

/-- The `CreateOrder.__init__(self, exchange_id, side, type, amount,
price=None)` constructor: `order` starts `None` and `status` starts
PENDING. -/
def CreateOrder.make (exchange_id : String) (side : Side) (type : OrderType)
    (amount : ℚ) (price : Option ℚ) : CreateOrder :=
  { exchange := exchange_id, side := side, type := type, amount := amount,
    price := price, order := none, status := .PENDING }

/-- exchanges.py `CancelOrder`: the action of cancelling an order. -/
structure CancelOrder where
  order_id : String
  exchange : String
  status : ActionStatus
deriving DecidableEq, Repr

/-- The `CancelOrder.__init__(self, order_id, exchange_id)` constructor.
Note the parameter order: the FIRST positional argument becomes `order_id`
and the SECOND becomes `exchange` (via `super().__init__(exchange_id)`). -/
def CancelOrder.make (order_id : String) (exchange_id : String) : CancelOrder :=
  { order_id := order_id, exchange := exchange_id, status := .PENDING }

/-! ## Effective sell price (arbitrage.py `_calculate_effective_sell_price`) -/

/-- The while-loop of `_calculate_effective_sell_price`, walking the bids by
index.  State: the remaining bid levels, `capacity_counted` and the
accumulated `effective_market_price`.  In the source, `remaining` is
initialised to `sell_amount` and never decremented, so each level is clipped
with `min(quantity, sell_amount)` rather than with the amount still needed;
`capacity_counted` grows by the full quantity of each level.  Running past
the end of the bids raises. -/
def effSellLoop (sellAmount : ℚ) : List Quote → ℚ → ℚ → Option ℚ
  | [], capacity, acc => if capacity < sellAmount then none else some acc
  | b :: rest, capacity, acc =>
      if capacity < sellAmount then
        effSellLoop sellAmount rest (capacity + b.quantity)
          (acc + (min b.quantity sellAmount / sellAmount) * b.price)
      else some acc

/-- arbitrage.py `_calculate_effective_sell_price(sell_amount, order_book)`:
`none` models the exception raised when the bid side cannot fill the
amount. -/
def calcEffectiveSellPrice (sellAmount : ℚ) (bids : List Quote) : Option ℚ :=
  effSellLoop sellAmount bids 0 0

/-- Modelled from the spec: the effective sell price walks the bids from the
top, accumulating filled quantity until it reaches `Q`, and computes
`S = sum over consumed levels of (q_i / Q) * p_i` where the consumed
quantity of each level is clipped to the remainder still needed; if the
whole bid side sums to less than `Q` the computation fails. -/
def specEffSellAux (Q : ℚ) : List Quote → ℚ → ℚ → Option ℚ
  | [], remaining, acc => if remaining ≤ 0 then some acc else none
  | b :: rest, remaining, acc =>
      if remaining ≤ 0 then some acc
      else specEffSellAux Q rest (remaining - min b.quantity remaining)
        (acc + (min b.quantity remaining / Q) * b.price)

/-- Modelled from the spec: effective sell price with per-level clipping to
the remainder (see `specEffSellAux`). -/
def specEffectiveSellPrice (Q : ℚ) (bids : List Quote) : Option ℚ :=
  specEffSellAux Q bids Q 0

/-- C1: the claim states that `_calculate_effective_sell_price(Q, book)`
returns `S = Σ (q_i/Q) × p_i` over the minimal prefix of bids whose
quantities sum to at least `Q`, with the last consumed level clipped to the
remainder still needed.  The code does not do this: the local variable
`remaining` is initialised to `sell_amount` and never decremented, so every
consumed level contributes `min(q_i, Q) / Q × p_i`.  For `Q = 10` over bids
`[(100, 6), (90, 6)]` the code returns `6/10×100 + 6/10×90 = 114` — more
than the best bid price, so not a volume-weighted mean of consumed prices,
contradicting the function's own docstring ("the mean price in $ / BTC that
the given amount of BTC will be sold for") — while the clipped sum of the
claim and of the docstring is `6/10×100 + 4/10×90 = 96`. -/
theorem C1_effective_sell_price_not_clipped :
    calcEffectiveSellPrice 10 [⟨100, 6⟩, ⟨90, 6⟩] = some 114 ∧
    specEffectiveSellPrice 10 [⟨100, 6⟩, ⟨90, 6⟩] = some 96 ∧
    (114 : ℚ) ≠ 96 ∧
    calcEffectiveSellPrice 10 [⟨100, 6⟩] = none := by
  refine ⟨?_, ?_, by norm_num, ?_⟩
  · norm_num [calcEffectiveSellPrice, effSellLoop]
  · norm_num [specEffectiveSellPrice, specEffSellAux]
  · norm_num [calcEffectiveSellPrice, effSellLoop]

/-! ## Fee model

arbitrage.py computes its fee factor through `exchanges_old.fees` and
`exchanges_old.fee_as_factor`; that module is not part of the repository
sources (only its tests and callers are), so the fee functions are modelled
from the spec and the per-venue fee rates are configuration data. -/

/-- Modelled from the spec: "For a fee rate f expressed as a fraction of the
gross, the post-fee multiplier is `fee_factor(f) = 1 / (1 + f)`"
(`exchanges_old.fee_as_factor` is absent from the sources). -/
def fee_as_factor (fee : ℚ) : ℚ := 1 / (1 + fee)

/-- Configuration of `OneWayPairArbitrage`: the two venues and the numeric
attributes set on the algorithm object.  `buyMakerFee` / `sellTakerFee`
stand for the fee-table lookups `fees(exchange_to_buy_on).maker` and
`fees(exchange_to_sell_on).taker` of the missing `exchanges_old` module. -/
structure StratConfig where
  exchangeBuy : String
  exchangeSell : String
  bidAmount : ℚ
  orderUpdateThreshold : ℚ
  profitTarget : ℚ
  buyMakerFee : ℚ
  sellTakerFee : ℚ
deriving DecidableEq, Repr

/-- arbitrage.py `_fee_factor`: the product of the buy venue's maker fee
factor and the sell venue's taker fee factor. -/
def StratConfig.feeFactor (cfg : StratConfig) : ℚ :=
  fee_as_factor cfg.buyMakerFee * fee_as_factor cfg.sellTakerFee

/-- arbitrage.py `_calculate_bid_limit_price`:
`bid_limit = fee_factor * market_price_to_sell / (1 + profit_target)`. -/
def calcBidLimitPrice (feeFactor marketPriceToSell profitTarget : ℚ) : ℚ :=
  feeFactor * marketPriceToSell / (1 + profitTarget)

/-- arbitrage.py `_calculate_profit_factor`:
`profit_factor = (fee_factor * sell_price) / buy_price`. -/
def calcProfitFactor (feeFactor buyPrice sellPrice : ℚ) : ℚ :=
  feeFactor * sellPrice / buyPrice

/-- arbitrage.py `_should_cancel_order(bid_price, new_best_sell_price)`:
cancel when the expected profit factor has drifted from the target
`1 + profit_target` by more than `order_update_threshold`. -/
def shouldCancelOrder (cfg : StratConfig) (bidPrice newBestSellPrice : ℚ) : Bool :=
  decide (cfg.orderUpdateThreshold <
    |calcProfitFactor cfg.feeFactor bidPrice newBestSellPrice - (1 + cfg.profitTarget)|)

/-! ## The strategy state machine (arbitrage.py `OneWayPairArbitrage`) -/

/-- An action handed to `_add_action_callback` (the trader's queue). -/
inductive EnqueuedAction where
  | createOrder (a : CreateOrder)
  | cancelOrder (a : CancelOrder)
deriving DecidableEq, Repr

/-- The mutable per-strategy state read and written by `on_data`:
`_live_limit_action`, `_live_cancel_action` and `_previous_fill_amount`.
(`_market_orders_made` is write-only bookkeeping and is not modelled.) -/
structure StratState where
  liveLimit : Option CreateOrder
  liveCancel : Option CancelOrder
  previousFill : ℚ
deriving DecidableEq, Repr

/-- The outcome of one `on_data` tick: the state after every mutation that
happened, the actions that were handed to `_add_action_callback` before any
exception, and the exception if one propagated.  Python mutations and
enqueues that precede a `raise` are not rolled back, so they are kept even
when `err` is set. -/
structure StratResult where
  state : StratState
  emitted : List EnqueuedAction
  err : Option String
deriving DecidableEq, Repr

/-- arbitrage.py `_sanity_check_action`: the four forbidden-shape checks, in
source order; returns the action unchanged when none fires. -/
def sanityCheckAction (cfg : StratConfig) (action : CreateOrder) :
    Except String CreateOrder :=
  if action.type = .MARKET ∧ action.side = .BID then
    .error "market bid order"
  else if action.type = .LIMIT ∧ action.side = .ASK then
    .error "limit ask order"
  else if action.exchange = cfg.exchangeBuy ∧ action.side = .ASK then
    .error "ask order on the buy exchange"
  else if action.exchange = cfg.exchangeSell ∧ action.side = .BID then
    .error "bid order on the sell exchange"
  else .ok action

/-- arbitrage.py `_create_bid_limit_order`: compute the effective sell price
on the sell venue for the configured bid amount, derive the bid limit price,
clamp the amount by what the free USD balance affords (the source divides
the balance by the BTC amount and truncates at 3 decimal places), fail on a
zero amount, and build the LIMIT BID action with the price rounded by
`round_to_cents`. -/
def createBidLimitOrder (cfg : StratConfig) (freeUSD : ℚ)
    (sellBids : List Quote) : Except String CreateOrder :=
  match calcEffectiveSellPrice cfg.bidAmount sellBids with
  | none => .error "not enough BTC buy orders on the exchange"
  | some sellPrice =>
    let bidPrice := calcBidLimitPrice cfg.feeFactor sellPrice cfg.profitTarget
    let maxCanAfford := quantize_three_down (freeUSD / cfg.bidAmount)
    let btcAmount := min cfg.bidAmount maxCanAfford
    if btcAmount = 0 then .error "not enough funds to buy"
    else .ok (CreateOrder.make cfg.exchangeBuy .BID .LIMIT btcAmount
      (some (round_to_cents bidPrice)))

/-- arbitrage.py `_sanity_check_order`: raises when the order is missing,
has amount 0, or is filled beyond the configured bid amount. -/
def sanityCheckOrder (cfg : StratConfig) (order : Option Order) :
    Except String Order :=
  match order with
  | none => .error "order is None"
  | some order =>
    if order.amount = 0 then .error "order for 0 BTC"
    else if cfg.bidAmount < order.filled then .error "filled more than placed"
    else .ok order

/-- arbitrage.py `_process_fill`: when the live limit order's `filled` has
moved since `_previous_fill_amount`, enqueue one MARKET ASK on the sell
venue for the difference (after `_sanity_check_action`) and record the new
fill amount; then, if the order is fully filled, require its status to be
CLOSED. -/
def processFill (cfg : StratConfig) (s : StratState) (a : CreateOrder) :
    StratResult :=
  match sanityCheckOrder cfg a.order with
  | .error e => { state := s, emitted := [], err := some e }
  | .ok order =>
    let latestFillAmount := order.filled
    let fillDiff := latestFillAmount - s.previousFill
    let step :=
      if fillDiff = 0 then ({ state := s, emitted := [], err := none } : StratResult)
      else
        match sanityCheckAction cfg
            (CreateOrder.make cfg.exchangeSell .ASK .MARKET fillDiff none) with
        | .error e => { state := s, emitted := [], err := some e }
        | .ok act =>
          { state := { s with previousFill := latestFillAmount },
            emitted := [.createOrder act], err := none }
    match step.err with
    | some e => { step with err := some e }
    | none =>
      if latestFillAmount = cfg.bidAmount ∧ order.status ≠ .CLOSED then
        { step with err := some "fully filled but not marked as closed" }
      else step

/-- Python `==` between members of two different Enum classes is always
False.  on_data compares `self._live_limit_action.status` (a
CreateOrder.Status) with `Order.Status.OPEN`; the comparison never
holds. -/
def pyEnumEqActionOrder (_ : ActionStatus) (_ : OrderStatus) : Bool := false

/-- arbitrage.py `update_bid_limit_order`: with a placed live limit order,
recompute the effective sell price from the current sell-venue book and, if
`_should_cancel_order` fires, build and enqueue
`CancelOrder(self.exchange_buy_on, order.order_id)` — note that the
constructor's parameters are `(order_id, exchange_id)`, so this call puts
the venue name into `order_id` and the order id into `exchange`. -/
def updateBidLimitOrder (cfg : StratConfig) (sellBids : List Quote)
    (s : StratState) : StratResult :=
  match s.liveLimit with
  | none => { state := s, emitted := [], err := none }
  | some a =>
    match a.order with
    | none => { state := s, emitted := [], err := none }
    | some order =>
      match calcEffectiveSellPrice cfg.bidAmount sellBids with
      | none => { state := s, emitted := [],
                  err := some "not enough BTC buy orders on the exchange" }
      | some newBestPrice =>
        if shouldCancelOrder cfg order.price newBestPrice then
          let c := CancelOrder.make cfg.exchangeBuy order.order_id
          { state := { s with liveCancel := some c },
            emitted := [.cancelOrder c], err := none }
        else { state := s, emitted := [], err := none }

/-- The part of arbitrage.py `on_data` that runs once a live limit action
exists (`act` is `self._live_limit_action`; `em` holds anything already
enqueued this tick).  FAILED clears the action; PENDING waits; SUCCESS runs
`_process_fill`, then the live-cancel bookkeeping, then the order-status
dispatch, then `update_bid_limit_order`. -/
def onDataWithLive (cfg : StratConfig) (sellBids : List Quote)
    (s : StratState) (act : CreateOrder) (em : List EnqueuedAction) :
    StratResult :=
  match act.status with
  | .FAILED => { state := { s with liveLimit := none }, emitted := em, err := none }
  | .PENDING => { state := s, emitted := em, err := none }
  | .SUCCESS =>
    let r := processFill cfg s act
    let em := em ++ r.emitted
    match r.err with
    | some e => { state := r.state, emitted := em, err := some e }
    | none =>
      let s := r.state
      match s.liveCancel with
      | some c =>
        match c.status with
        | .PENDING => { state := s, emitted := em, err := none }
        | .SUCCESS =>
          if pyEnumEqActionOrder act.status .OPEN then
            { state := s, emitted := em,
              err := some "cancel succeeded but order still open" }
          else
            { state := { s with liveLimit := none, liveCancel := none },
              emitted := em, err := none }
        | .FAILED =>
          { state := s, emitted := em,
            err := some "NotImplementedError: a cancel action failed" }
      | none =>
        match act.order with
        | none => { state := s, emitted := em, err := some "order is None" }
        | some order =>
          match order.status with
          | .CANCELLED =>
            { state := s, emitted := em,
              err := some "NotImplementedError: cancelled without our intention" }
          | .CLOSED =>
            { state := { s with liveLimit := none, liveCancel := none,
                                previousFill := 0 },
              emitted := em, err := none }
          | .OPEN =>
            let r2 := updateBidLimitOrder cfg sellBids s
            { state := r2.state, emitted := em ++ r2.emitted, err := r2.err }

/-- arbitrage.py `on_data`, one strategy tick.  `freeUSD` is the free USD
balance read from the buy venue and `sellBids` the bid side of the sell
venue's book.  When no live limit action exists, `_create_bid_limit_order`
runs first; the new action is stored on the strategy before
`_sanity_check_action` can raise, and is enqueued when the check passes. -/
def onData (cfg : StratConfig) (freeUSD : ℚ) (sellBids : List Quote)
    (s : StratState) : StratResult :=
  match s.liveLimit with
  | none =>
    match createBidLimitOrder cfg freeUSD sellBids with
    | .error e => { state := s, emitted := [], err := some e }
    | .ok act =>
      let s := { s with liveLimit := some act }
      match sanityCheckAction cfg act with
      | .error e => { state := s, emitted := [], err := some e }
      | .ok act => onDataWithLive cfg sellBids s act [.createOrder act]
  | some act => onDataWithLive cfg sellBids s act []

/-- Whether an enqueued action is a CreateOrder (as opposed to a
CancelOrder). -/
def isCreateOrder : EnqueuedAction → Bool
  | .createOrder _ => true
  | .cancelOrder _ => false

theorem updateBidLimitOrder_no_creates (cfg : StratConfig) (sellBids : List Quote)
    (s : StratState) :
    (updateBidLimitOrder cfg sellBids s).emitted.filter isCreateOrder = [] := by
  rcases hll : s.liveLimit with _ | a
  · simp [updateBidLimitOrder, hll]
  · rcases ho : a.order with _ | order
    · simp [updateBidLimitOrder, hll, ho]
    · rcases hc : calcEffectiveSellPrice cfg.bidAmount sellBids with _ | p
      · simp [updateBidLimitOrder, hll, ho, hc]
      · by_cases h : shouldCancelOrder cfg order.price p = true
        · simp [updateBidLimitOrder, hll, ho, hc, h, isCreateOrder]
        · simp [updateBidLimitOrder, hll, ho, hc, h]

theorem updateBidLimitOrder_keeps_fill (cfg : StratConfig) (sellBids : List Quote)
    (s : StratState) :
    (updateBidLimitOrder cfg sellBids s).state.previousFill = s.previousFill := by
  rcases hll : s.liveLimit with _ | a
  · simp [updateBidLimitOrder, hll]
  · rcases ho : a.order with _ | order
    · simp [updateBidLimitOrder, hll, ho]
    · rcases hc : calcEffectiveSellPrice cfg.bidAmount sellBids with _ | p
      · simp [updateBidLimitOrder, hll, ho, hc]
      · by_cases h : shouldCancelOrder cfg order.price p = true
        · simp [updateBidLimitOrder, hll, ho, hc, h]
        · simp [updateBidLimitOrder, hll, ho, hc, h]

theorem sanityCheckAction_market_ask (cfg : StratConfig) (a : CreateOrder)
    (hType : a.type = .MARKET) (hSide : a.side = .ASK)
    (hExch : a.exchange ≠ cfg.exchangeBuy) :
    sanityCheckAction cfg a = .ok a := by
  simp [sanityCheckAction, hType, hSide, hExch]

theorem sanityCheckAction_limit_bid (cfg : StratConfig) (a : CreateOrder)
    (hType : a.type = .LIMIT) (hSide : a.side = .BID)
    (hExch : a.exchange ≠ cfg.exchangeSell) :
    sanityCheckAction cfg a = .ok a := by
  simp [sanityCheckAction, hType, hSide, hExch]

theorem processFill_no_new_fill_ok (cfg : StratConfig) (s : StratState)
    (act : CreateOrder) (order : Order) (hOrd : act.order = some order)
    (hAmt : order.amount ≠ 0) (hFill : order.filled ≤ cfg.bidAmount)
    (hEq : order.filled = s.previousFill)
    (hOK : ¬(order.filled = cfg.bidAmount ∧ order.status ≠ OrderStatus.CLOSED)) :
    processFill cfg s act = { state := s, emitted := [], err := none } := by
  have hs : sanityCheckOrder cfg act.order = .ok order := by
    simp [sanityCheckOrder, hOrd, hAmt, not_lt.mpr hFill]
  simp only [processFill, hs]
  rw [if_pos (sub_eq_zero.mpr hEq)]
  simp [hOK]

theorem processFill_no_new_fill_err (cfg : StratConfig) (s : StratState)
    (act : CreateOrder) (order : Order) (hOrd : act.order = some order)
    (hAmt : order.amount ≠ 0) (hFill : order.filled ≤ cfg.bidAmount)
    (hEq : order.filled = s.previousFill)
    (hFull : order.filled = cfg.bidAmount) (hNC : order.status ≠ OrderStatus.CLOSED) :
    processFill cfg s act =
      { state := s, emitted := [],
        err := some "fully filled but not marked as closed" } := by
  have hs : sanityCheckOrder cfg act.order = .ok order := by
    simp [sanityCheckOrder, hOrd, hAmt, not_lt.mpr hFill]
  simp only [processFill, hs]
  rw [if_pos (sub_eq_zero.mpr hEq)]
  simp [hFull, hNC]

theorem processFill_new_fill_ok (cfg : StratConfig) (s : StratState)
    (act : CreateOrder) (order : Order) (hOrd : act.order = some order)
    (hAmt : order.amount ≠ 0) (hFill : order.filled ≤ cfg.bidAmount)
    (hNe : order.filled ≠ s.previousFill)
    (hExch : cfg.exchangeSell ≠ cfg.exchangeBuy)
    (hOK : ¬(order.filled = cfg.bidAmount ∧ order.status ≠ OrderStatus.CLOSED)) :
    processFill cfg s act =
      { state := { s with previousFill := order.filled },
        emitted := [.createOrder (CreateOrder.make cfg.exchangeSell .ASK .MARKET
          (order.filled - s.previousFill) none)],
        err := none } := by
  have hs : sanityCheckOrder cfg act.order = .ok order := by
    simp [sanityCheckOrder, hOrd, hAmt, not_lt.mpr hFill]
  have h2 : sanityCheckAction cfg
      (CreateOrder.make cfg.exchangeSell .ASK .MARKET
        (order.filled - s.previousFill) none) =
      .ok (CreateOrder.make cfg.exchangeSell .ASK .MARKET
        (order.filled - s.previousFill) none) :=
    sanityCheckAction_market_ask _ _ rfl rfl hExch
  simp only [processFill, hs]
  rw [if_neg (sub_ne_zero.mpr hNe), h2]
  simp [hOK]

theorem processFill_new_fill_err (cfg : StratConfig) (s : StratState)
    (act : CreateOrder) (order : Order) (hOrd : act.order = some order)
    (hAmt : order.amount ≠ 0) (hFill : order.filled ≤ cfg.bidAmount)
    (hNe : order.filled ≠ s.previousFill)
    (hExch : cfg.exchangeSell ≠ cfg.exchangeBuy)
    (hFull : order.filled = cfg.bidAmount) (hNC : order.status ≠ OrderStatus.CLOSED) :
    processFill cfg s act =
      { state := { s with previousFill := order.filled },
        emitted := [.createOrder (CreateOrder.make cfg.exchangeSell .ASK .MARKET
          (order.filled - s.previousFill) none)],
        err := some "fully filled but not marked as closed" } := by
  have hs : sanityCheckOrder cfg act.order = .ok order := by
    simp [sanityCheckOrder, hOrd, hAmt, not_lt.mpr hFill]
  have h2 : sanityCheckAction cfg
      (CreateOrder.make cfg.exchangeSell .ASK .MARKET
        (order.filled - s.previousFill) none) =
      .ok (CreateOrder.make cfg.exchangeSell .ASK .MARKET
        (order.filled - s.previousFill) none) :=
    sanityCheckAction_market_ask _ _ rfl rfl hExch
  simp only [processFill, hs]
  rw [if_neg (sub_ne_zero.mpr hNe), h2]
  simp [hFull, hNC]

/-- C3 (amended): on every strategy tick at which the live limit action has
status SUCCESS and no cancel action is outstanding, an increase Δ > 0 of
the resulting order's filled amount since `previous_fill_amount` causes
exactly one CreateOrder(MARKET, ASK) of amount Δ on the sell venue to be
enqueued and `previous_fill_amount` to be updated to the new filled amount;
whenever filled equals the configured bid amount the order must be CLOSED,
otherwise the tick errors; and when it is CLOSED the strategy forgets the
live actions and zeroes `previous_fill_amount`.  (The original claim,
without the no-outstanding-cancel proviso, fails: see
`C3_counterexample`.) -/
theorem C3_fill_hedging_and_reset (cfg : StratConfig) (freeUSD : ℚ)
    (sellBids : List Quote) (s : StratState) (act : CreateOrder) (order : Order)
    (hLive : s.liveLimit = some act) (hSt : act.status = .SUCCESS)
    (hOrd : act.order = some order) (hAmt : order.amount ≠ 0)
    (hFill : order.filled ≤ cfg.bidAmount) (hCancel : s.liveCancel = none)
    (hExch : cfg.exchangeSell ≠ cfg.exchangeBuy) :
    (s.previousFill < order.filled →
      (onData cfg freeUSD sellBids s).emitted.filter isCreateOrder =
        [.createOrder (CreateOrder.make cfg.exchangeSell .ASK .MARKET
          (order.filled - s.previousFill) none)]) ∧
    (s.previousFill < order.filled → order.status = .OPEN →
      (onData cfg freeUSD sellBids s).state.previousFill = order.filled) ∧
    (order.filled = cfg.bidAmount → order.status ≠ .CLOSED →
      ((onData cfg freeUSD sellBids s).err).isSome = true) ∧
    (order.filled = cfg.bidAmount → order.status = .CLOSED →
      (onData cfg freeUSD sellBids s).err = none ∧
      (onData cfg freeUSD sellBids s).state.liveLimit = none ∧
      (onData cfg freeUSD sellBids s).state.liveCancel = none ∧
      (onData cfg freeUSD sellBids s).state.previousFill = 0) ∧
    (s.previousFill = order.filled →
      (onData cfg freeUSD sellBids s).emitted.filter isCreateOrder = []) := by
  have hD : onData cfg freeUSD sellBids s = onDataWithLive cfg sellBids s act [] := by
    simp [onData, hLive]
  refine ⟨fun hlt => ?_, fun hlt hOpen => ?_, fun hFull hNC => ?_,
    fun hFull hCl => ?_, fun hEq => ?_⟩
  · -- one market ask of amount Δ is enqueued
    have hNe : order.filled ≠ s.previousFill := hlt.ne'
    by_cases hErr : order.filled = cfg.bidAmount ∧ order.status ≠ OrderStatus.CLOSED
    · have hR := processFill_new_fill_err cfg s act order hOrd hAmt hFill hNe hExch
        hErr.1 hErr.2
      simp [hD, onDataWithLive, hSt, hR, isCreateOrder]
    · have hR := processFill_new_fill_ok cfg s act order hOrd hAmt hFill hNe hExch hErr
      rcases hOS : order.status with _ | _ | _
      · simp [hD, onDataWithLive, hSt, hR, hCancel, hOrd, hOS, isCreateOrder,
          List.filter_append, updateBidLimitOrder_no_creates]
      · simp [hD, onDataWithLive, hSt, hR, hCancel, hOrd, hOS, isCreateOrder]
      · simp [hD, onDataWithLive, hSt, hR, hCancel, hOrd, hOS, isCreateOrder]
  · -- previous_fill_amount is updated to the new filled amount
    have hNe : order.filled ≠ s.previousFill := hlt.ne'
    by_cases hErr : order.filled = cfg.bidAmount ∧ order.status ≠ OrderStatus.CLOSED
    · have hR := processFill_new_fill_err cfg s act order hOrd hAmt hFill hNe hExch
        hErr.1 hErr.2
      simp [hD, onDataWithLive, hSt, hR]
    · have hR := processFill_new_fill_ok cfg s act order hOrd hAmt hFill hNe hExch hErr
      simp [hD, onDataWithLive, hSt, hR, hCancel, hOrd, hOpen,
        updateBidLimitOrder_keeps_fill]
  · -- fully filled but not closed raises
    by_cases hEq : order.filled = s.previousFill
    · have hR := processFill_no_new_fill_err cfg s act order hOrd hAmt hFill hEq
        hFull hNC
      simp [hD, onDataWithLive, hSt, hR]
    · have hR := processFill_new_fill_err cfg s act order hOrd hAmt hFill hEq hExch
        hFull hNC
      simp [hD, onDataWithLive, hSt, hR]
  · -- fully filled and closed resets the strategy state
    have hOK : ¬(order.filled = cfg.bidAmount ∧ order.status ≠ OrderStatus.CLOSED) := by
      simp [hCl]
    by_cases hEq : order.filled = s.previousFill
    · have hR := processFill_no_new_fill_ok cfg s act order hOrd hAmt hFill hEq hOK
      simp [hD, onDataWithLive, hSt, hR, hCancel, hOrd, hCl]
    · have hR := processFill_new_fill_ok cfg s act order hOrd hAmt hFill hEq hExch hOK
      simp [hD, onDataWithLive, hSt, hR, hCancel, hOrd, hCl]
  · -- no new fill, no market ask
    by_cases hErr : order.filled = cfg.bidAmount ∧ order.status ≠ OrderStatus.CLOSED
    · have hR := processFill_no_new_fill_err cfg s act order hOrd hAmt hFill hEq.symm
        hErr.1 hErr.2
      simp [hD, onDataWithLive, hSt, hR]
    · have hR := processFill_no_new_fill_ok cfg s act order hOrd hAmt hFill hEq.symm hErr
      rcases hOS : order.status with _ | _ | _
      · simp [hD, onDataWithLive, hSt, hR, hCancel, hOrd, hOS,
          List.filter_append, updateBidLimitOrder_no_creates]
      · simp [hD, onDataWithLive, hSt, hR, hCancel, hOrd, hOS]
      · simp [hD, onDataWithLive, hSt, hR, hCancel, hOrd, hOS]

/-- A concrete strategy configuration used by the scenario theorems below:
buy on "gdax", sell on "gemini", bid amount 1 BTC, update threshold 0.1,
profit target 10 percent, zero fees (so the combined fee factor is 1). -/
def exampleCfg : StratConfig :=
  { exchangeBuy := "gdax", exchangeSell := "gemini", bidAmount := 1,
    orderUpdateThreshold := 1/10, profitTarget := 1/10, buyMakerFee := 0,
    sellTakerFee := 0 }

/-- A live limit order on the buy venue, half filled and still open. -/
def exampleOrderOpen : Order :=
  { order_id := "5", price := 15147, amount := 1, filled := 1/2, status := .OPEN }

/-- A live limit order on the buy venue, fully filled and closed. -/
def exampleOrderClosed : Order :=
  { order_id := "5", price := 15147, amount := 1, filled := 1, status := .CLOSED }

/-- A successfully placed bid limit action holding `exampleOrderOpen`. -/
def exampleActOpen : CreateOrder :=
  { exchange := "gdax", side := .BID, type := .LIMIT, amount := 1,
    price := some 15147, order := some exampleOrderOpen, status := .SUCCESS }

/-- A successfully placed bid limit action holding `exampleOrderClosed`. -/
def exampleActClosed : CreateOrder :=
  { exchange := "gdax", side := .BID, type := .LIMIT, amount := 1,
    price := some 15147, order := some exampleOrderClosed, status := .SUCCESS }

/-- C3, counterexample to the claim as stated: on a SUCCESS tick whose order
is fully filled and CLOSED but where a cancel action is still PENDING,
`on_data` returns after `_process_fill` without raising and WITHOUT
forgetting the live actions or zeroing `previous_fill_amount` (the cancel
branch returns first), so the claimed reset does not happen. -/
theorem C3_counterexample :
    onData exampleCfg 0 []
        { liveLimit := some exampleActClosed,
          liveCancel := some { order_id := "gdax", exchange := "7", status := .PENDING },
          previousFill := 1 } =
      { state := { liveLimit := some exampleActClosed,
                   liveCancel := some { order_id := "gdax", exchange := "7", status := .PENDING },
                   previousFill := 1 },
        emitted := [], err := none } ∧
    exampleOrderClosed.filled = exampleCfg.bidAmount ∧
    exampleOrderClosed.status = .CLOSED ∧
    (1 : ℚ) ≠ 0 := by
  refine ⟨?_, rfl, rfl, by norm_num⟩
  norm_num [onData, onDataWithLive, processFill, sanityCheckOrder, exampleCfg,
    exampleActClosed, exampleOrderClosed]

/-- C3, witness: a concrete SUCCESS tick with fill increase 1/4 emits
exactly one MARKET ASK of amount 1/4 on the sell venue. -/
theorem C3_witness :
    (onData exampleCfg 0 [⟨16000, 5⟩]
        { liveLimit := some exampleActOpen, liveCancel := none,
          previousFill := 1/4 }).emitted.filter isCreateOrder =
      [.createOrder (CreateOrder.make "gemini" .ASK .MARKET ((1:ℚ)/2 - 1/4) none)] := by
  exact (C3_fill_hedging_and_reset exampleCfg 0 [⟨16000, 5⟩] _ exampleActOpen
    exampleOrderOpen rfl rfl rfl (by norm_num [exampleOrderOpen])
    (by norm_num [exampleOrderOpen, exampleCfg]) rfl (by decide)).1
    (by norm_num [exampleOrderOpen])


/-- C4 (amended): on every strategy tick with no live limit action, the
strategy enqueues exactly one CreateOrder(LIMIT, BID) on the buy venue
whose price is `fee_factor × S / (1 + profit_target)` rounded to cents with
ROUND_HALF_UP (`round_to_cents`; the original claim said rounded DOWN,
which fails: see `C4_counterexample`), and whose amount is
`min(configured bid amount, (free USD / configured bid amount) rounded down
to 3 decimal places)`; if that minimum is 0 the tick errors and nothing is
enqueued. -/
theorem C4_bid_limit_creation (cfg : StratConfig) (freeUSD : ℚ)
    (sellBids : List Quote) (s : StratState) (S : ℚ)
    (hLive : s.liveLimit = none)
    (hS : calcEffectiveSellPrice cfg.bidAmount sellBids = some S)
    (hExch : cfg.exchangeBuy ≠ cfg.exchangeSell) :
    (min cfg.bidAmount (quantize_three_down (freeUSD / cfg.bidAmount)) ≠ 0 →
      onData cfg freeUSD sellBids s =
        { state := { s with liveLimit := some (CreateOrder.make cfg.exchangeBuy
            .BID .LIMIT
            (min cfg.bidAmount (quantize_three_down (freeUSD / cfg.bidAmount)))
            (some (round_to_cents
              (calcBidLimitPrice cfg.feeFactor S cfg.profitTarget)))) },
          emitted := [.createOrder (CreateOrder.make cfg.exchangeBuy .BID .LIMIT
            (min cfg.bidAmount (quantize_three_down (freeUSD / cfg.bidAmount)))
            (some (round_to_cents
              (calcBidLimitPrice cfg.feeFactor S cfg.profitTarget))))],
          err := none }) ∧
    (min cfg.bidAmount (quantize_three_down (freeUSD / cfg.bidAmount)) = 0 →
      onData cfg freeUSD sellBids s =
        { state := s, emitted := [], err := some "not enough funds to buy" }) := by
  constructor
  · intro hmin
    have hC : createBidLimitOrder cfg freeUSD sellBids =
        .ok (CreateOrder.make cfg.exchangeBuy .BID .LIMIT
          (min cfg.bidAmount (quantize_three_down (freeUSD / cfg.bidAmount)))
          (some (round_to_cents
            (calcBidLimitPrice cfg.feeFactor S cfg.profitTarget)))) := by
      simp [createBidLimitOrder, hS, hmin]
    have hsan : sanityCheckAction cfg (CreateOrder.make cfg.exchangeBuy .BID .LIMIT
        (min cfg.bidAmount (quantize_three_down (freeUSD / cfg.bidAmount)))
        (some (round_to_cents
          (calcBidLimitPrice cfg.feeFactor S cfg.profitTarget)))) =
        .ok (CreateOrder.make cfg.exchangeBuy .BID .LIMIT
          (min cfg.bidAmount (quantize_three_down (freeUSD / cfg.bidAmount)))
          (some (round_to_cents
            (calcBidLimitPrice cfg.feeFactor S cfg.profitTarget)))) :=
      sanityCheckAction_limit_bid _ _ rfl rfl hExch
    simp only [CreateOrder.make] at hC hsan
    simp [onData, hLive, hC, hsan, onDataWithLive, CreateOrder.make]
  · intro hmin
    have hC : createBidLimitOrder cfg freeUSD sellBids =
        .error "not enough funds to buy" := by
      simp [createBidLimitOrder, hS, hmin]
    simp [onData, hLive, hC]


/-- A concrete configuration with zero fees and zero profit target, so that
the bid limit price equals the effective sell price. -/
def exampleCfg0 : StratConfig :=
  { exchangeBuy := "gdax", exchangeSell := "gemini", bidAmount := 1,
    orderUpdateThreshold := 1/10, profitTarget := 0, buyMakerFee := 0,
    sellTakerFee := 0 }

/-- C4, counterexample to the claim as stated: with fee factor 1, profit
target 0 and effective sell price 100.995, the emitted bid price is the
HALF_UP rounding 101.00 (`round_to_cents`, as the code calls), not the
claimed round-down 100.99 (`round_down_to_cents`). -/
theorem C4_counterexample :
    (onData exampleCfg0 1000 [⟨20199/200, 1⟩]
        { liveLimit := none, liveCancel := none, previousFill := 0 }).emitted =
      [.createOrder (CreateOrder.make "gdax" .BID .LIMIT 1 (some 101))] ∧
    round_down_to_cents (calcBidLimitPrice exampleCfg0.feeFactor (20199/200)
      exampleCfg0.profitTarget) = 10099/100 ∧
    ((101 : ℚ)) ≠ 10099/100 := by
  refine ⟨?_, ?_, by norm_num⟩
  · have hC : createBidLimitOrder exampleCfg0 1000 [⟨20199/200, 1⟩] =
        .ok (CreateOrder.make "gdax" .BID .LIMIT 1 (some 101)) := by
      norm_num [createBidLimitOrder, calcEffectiveSellPrice, effSellLoop,
        calcBidLimitPrice, StratConfig.feeFactor, fee_as_factor,
        quantize_three_down, round_to_cents, min_def, exampleCfg0]
    simp only [onData, hC]
    simp [sanityCheckAction, CreateOrder.make, onDataWithLive, exampleCfg0]
  · norm_num [round_down_to_cents, calcBidLimitPrice, StratConfig.feeFactor,
      fee_as_factor, exampleCfg0]

/-- C4, witness: a concrete tick with no live limit action and an ample
balance emits exactly one LIMIT BID with the computed price and amount. -/
theorem C4_witness :
    onData exampleCfg 1000000 [⟨20000, 5⟩]
        { liveLimit := none, liveCancel := none, previousFill := 0 } =
      { state :=
          { liveLimit :=
              some (CreateOrder.make "gdax" .BID .LIMIT
                (min exampleCfg.bidAmount
                  (quantize_three_down (1000000 / exampleCfg.bidAmount)))
                (some (round_to_cents
                  (calcBidLimitPrice exampleCfg.feeFactor 20000
                    exampleCfg.profitTarget)))),
            liveCancel := none, previousFill := 0 },
        emitted :=
          [.createOrder (CreateOrder.make "gdax" .BID .LIMIT
            (min exampleCfg.bidAmount
              (quantize_three_down (1000000 / exampleCfg.bidAmount)))
            (some (round_to_cents
              (calcBidLimitPrice exampleCfg.feeFactor 20000
                exampleCfg.profitTarget))))],
        err := none } := by
  exact (C4_bid_limit_creation exampleCfg 1000000 [⟨20000, 5⟩] _ 20000 rfl
    (by norm_num [calcEffectiveSellPrice, effSellLoop, exampleCfg, min_def])
    (by decide)).1
    (by norm_num [quantize_three_down, exampleCfg, min_def])

/-- Outcome of a SUCCESS tick (no new fill, order still open, no cancel
outstanding) as a function of `_should_cancel_order`: a cancel action built
by `CancelOrder(exchange_buy_on, order_id)` is enqueued exactly when the
drift test fires, and nothing is enqueued otherwise. -/
theorem onData_repricing_outcome (cfg : StratConfig) (sellBids : List Quote)
    (s : StratState) (act : CreateOrder) (order : Order) (S : ℚ)
    (hLive : s.liveLimit = some act) (hSt : act.status = .SUCCESS)
    (hOrd : act.order = some order) (hAmt : order.amount ≠ 0)
    (hFill : order.filled ≤ cfg.bidAmount) (hEq : order.filled = s.previousFill)
    (hNotFull : order.filled ≠ cfg.bidAmount) (hOpen : order.status = .OPEN)
    (hCancel : s.liveCancel = none)
    (hS : calcEffectiveSellPrice cfg.bidAmount sellBids = some S) :
    (shouldCancelOrder cfg order.price S = true →
      onData cfg 0 sellBids s =
        { state :=
            { s with
              liveCancel := some (CancelOrder.make cfg.exchangeBuy order.order_id) },
          emitted := [.cancelOrder (CancelOrder.make cfg.exchangeBuy order.order_id)],
          err := none }) ∧
    (shouldCancelOrder cfg order.price S = false →
      onData cfg 0 sellBids s = { state := s, emitted := [], err := none }) := by
  have hOK : ¬(order.filled = cfg.bidAmount ∧ order.status ≠ OrderStatus.CLOSED) := by
    simp [hNotFull]
  have hR := processFill_no_new_fill_ok cfg s act order hOrd hAmt hFill hEq hOK
  have hD : onData cfg 0 sellBids s = onDataWithLive cfg sellBids s act [] := by
    simp [onData, hLive]
  constructor
  · intro hc
    simp [hD, onDataWithLive, hSt, hR, hCancel, hOrd, hOpen,
      updateBidLimitOrder, hLive, hS, hc]
  · intro hc
    simp [hD, onDataWithLive, hSt, hR, hCancel, hOrd, hOpen,
      updateBidLimitOrder, hLive, hS, hc]

/-- C5: on a tick with a live SUCCESS limit order, no outstanding cancel and
the order still OPEN, a CancelOrder is enqueued iff the recomputed profit
factor drifts from `1 + profit_target` by more than the threshold — but the
enqueued action does NOT target the buy venue with the order's id as the
claim states: `update_bid_limit_order` calls
`CancelOrder(self.exchange_buy_on, order.order_id)` against the constructor
signature `CancelOrder(order_id, exchange_id)`, so the action's `order_id`
field holds the venue name "gdax" and its `exchange` field holds the order
id "5".  At a 14000 top bid (drift ≈ 0.176 > 0.1) exactly one such swapped
CancelOrder is emitted; at 16000 (drift ≈ 0.044 ≤ 0.1) nothing is. -/
theorem C5_cancel_swapped_concrete :
    onData exampleCfg 0 [⟨14000, 5⟩]
        { liveLimit := some exampleActOpen, liveCancel := none,
          previousFill := 1/2 } =
      { state := { liveLimit := some exampleActOpen,
                   liveCancel := some { order_id := "gdax", exchange := "5",
                                        status := .PENDING },
                   previousFill := 1/2 },
        emitted := [.cancelOrder { order_id := "gdax", exchange := "5",
                                   status := .PENDING }],
        err := none } ∧
    exampleCfg.exchangeBuy = "gdax" ∧ exampleOrderOpen.order_id = "5" ∧
    shouldCancelOrder exampleCfg exampleOrderOpen.price 14000 = true ∧
    shouldCancelOrder exampleCfg exampleOrderOpen.price 16000 = false ∧
    (onData exampleCfg 0 [⟨16000, 5⟩]
        { liveLimit := some exampleActOpen, liveCancel := none,
          previousFill := 1/2 }).emitted = [] := by
  have h14 : shouldCancelOrder exampleCfg exampleOrderOpen.price 14000 = true := by
    simp only [shouldCancelOrder, decide_eq_true_eq, calcProfitFactor,
      StratConfig.feeFactor, fee_as_factor, exampleCfg, exampleOrderOpen, lt_abs]
    norm_num
  have h16 : shouldCancelOrder exampleCfg exampleOrderOpen.price 16000 = false := by
    simp only [shouldCancelOrder, decide_eq_false_iff_not, calcProfitFactor,
      StratConfig.feeFactor, fee_as_factor, exampleCfg, exampleOrderOpen, lt_abs]
    norm_num
  have hS14 : calcEffectiveSellPrice exampleCfg.bidAmount [(⟨14000, 5⟩ : Quote)] =
      some 14000 := by
    norm_num [calcEffectiveSellPrice, effSellLoop, exampleCfg, min_def]
  have hS16 : calcEffectiveSellPrice exampleCfg.bidAmount [(⟨16000, 5⟩ : Quote)] =
      some 16000 := by
    norm_num [calcEffectiveSellPrice, effSellLoop, exampleCfg, min_def]
  refine ⟨?_, rfl, rfl, h14, h16, ?_⟩
  · have h := (onData_repricing_outcome exampleCfg [⟨14000, 5⟩] ⟨some exampleActOpen, none, 1/2⟩ exampleActOpen
      exampleOrderOpen 14000 rfl rfl rfl (by norm_num [exampleOrderOpen])
      (by norm_num [exampleOrderOpen, exampleCfg])
      (by norm_num [exampleOrderOpen])
      (by norm_num [exampleOrderOpen, exampleCfg]) rfl rfl hS14).1 h14
    simpa [CancelOrder.make, exampleOrderOpen, exampleCfg] using h
  · have h := (onData_repricing_outcome exampleCfg [⟨16000, 5⟩] ⟨some exampleActOpen, none, 1/2⟩ exampleActOpen
      exampleOrderOpen 16000 rfl rfl rfl (by norm_num [exampleOrderOpen])
      (by norm_num [exampleOrderOpen, exampleCfg])
      (by norm_num [exampleOrderOpen])
      (by norm_num [exampleOrderOpen, exampleCfg]) rfl rfl hS16).2 h16
    rw [h]


/-! ## Gemini order-event handling (gemini.py `_handle_orders`) -/

/-- exchanges.py `ExchangeState.set_order`: the dict assignment
`self._orders[order_id] = order_info`, modelled on an association list. -/
def setOrder (orders : List (String × Order)) (oid : String) (o : Order) :
    List (String × Order) :=
  (oid, o) :: orders.filter (fun e => e.1 ≠ oid)

/-- The matching loop shared by the `accepted` and `rejected` branches of
gemini.py `_handle_orders`: walk `self._actions` for the first action whose
Python identity `id(a)` equals the event's `client_order_id`; an action that
already holds an order is an error; tag the match with the new order and
`newStatus` and stop (the loop breaks).  No match at all raises.  Actions
are paired with their `Nat` identity. -/
def matchOrderAction (newStatus : ActionStatus) (clientOrderId : Nat)
    (newOrder : Order) :
    List (Nat × CreateOrder) → Except String (List (Nat × CreateOrder))
  | [] => .error "no matching order action was found"
  | (ident, a) :: rest =>
    if ident = clientOrderId then
      if a.order.isSome then .error "corresponding action already has an order"
      else .ok ((ident, { a with order := some newOrder, status := newStatus }) :: rest)
    else
      match matchOrderAction newStatus clientOrderId newOrder rest with
      | .error e => .error e
      | .ok rest' => .ok ((ident, a) :: rest')

/-- gemini.py `_handle_orders`, `accepted` branch: store the decoded order
in the exchange state, then mark the matching CreateOrder action SUCCESS and
give it the order; no matching action is fatal. -/
def handleAccepted (clientOrderId : Nat) (newOrder : Order)
    (orders : List (String × Order)) (actions : List (Nat × CreateOrder)) :
    Except String (List (String × Order) × List (Nat × CreateOrder)) :=
  match matchOrderAction .SUCCESS clientOrderId newOrder actions with
  | .error e => .error e
  | .ok actions' => .ok (setOrder orders newOrder.order_id newOrder, actions')

/-- gemini.py `_handle_orders`, `rejected` branch: as `accepted` but the
matching action is marked FAILED. -/
def handleRejected (clientOrderId : Nat) (newOrder : Order)
    (orders : List (String × Order)) (actions : List (Nat × CreateOrder)) :
    Except String (List (String × Order) × List (Nat × CreateOrder)) :=
  match matchOrderAction .FAILED clientOrderId newOrder actions with
  | .error e => .error e
  | .ok actions' => .ok (setOrder orders newOrder.order_id newOrder, actions')

theorem matchOrderAction_found (st : ActionStatus) (cid : Nat) (ord : Order) :
    ∀ (l1 : List (Nat × CreateOrder)) (a : Nat × CreateOrder)
      (l2 : List (Nat × CreateOrder)),
      (∀ b ∈ l1, b.1 ≠ cid) → a.1 = cid → a.2.order = none →
      matchOrderAction st cid ord (l1 ++ a :: l2) =
        .ok (l1 ++ (a.1, { a.2 with order := some ord, status := st }) :: l2) := by
  intro l1
  induction l1 with
  | nil =>
    intro a l2 _ ha hord
    obtain ⟨i, act⟩ := a
    simp only at ha hord
    simp [matchOrderAction, ha, hord]
  | cons b t ih =>
    intro a l2 hl ha hord
    obtain ⟨i, act⟩ := b
    have hb : i ≠ cid := hl (i, act) (by simp)
    have ht : ∀ b ∈ t, b.1 ≠ cid := fun b hm => hl b (by simp [hm])
    simp [matchOrderAction, hb, ih a l2 ht ha hord]

theorem matchOrderAction_missing (st : ActionStatus) (cid : Nat) (ord : Order) :
    ∀ actions : List (Nat × CreateOrder), (∀ b ∈ actions, b.1 ≠ cid) →
      matchOrderAction st cid ord actions =
        .error "no matching order action was found" := by
  intro actions
  induction actions with
  | nil => intro _; rfl
  | cons b t ih =>
    intro hl
    obtain ⟨i, act⟩ := b
    have hb : i ≠ cid := hl (i, act) (by simp)
    have ht : ∀ b ∈ t, b.1 ≠ cid := fun b hm => hl b (by simp [hm])
    simp [matchOrderAction, hb, ih ht]

/-- C2: for a Gemini `accepted` order event, the pending CreateOrder action
whose identity equals the event's `client_order_id` gets its `order` field
set to the decoded venue order and its status set to SUCCESS (the first
match in `self._actions`, earlier actions having different identities); a
`rejected` event does the same with status FAILED; and when no recorded
action matches the event's `client_order_id`, the handler raises. -/
theorem C2_accept_reject_matching (cid : Nat) (ord : Order)
    (orders : List (String × Order)) :
    (∀ (l1 : List (Nat × CreateOrder)) (a : Nat × CreateOrder)
       (l2 : List (Nat × CreateOrder)),
      (∀ b ∈ l1, b.1 ≠ cid) → a.1 = cid → a.2.order = none →
      handleAccepted cid ord orders (l1 ++ a :: l2) =
        .ok (setOrder orders ord.order_id ord,
          l1 ++ (a.1, { a.2 with order := some ord, status := .SUCCESS }) :: l2) ∧
      handleRejected cid ord orders (l1 ++ a :: l2) =
        .ok (setOrder orders ord.order_id ord,
          l1 ++ (a.1, { a.2 with order := some ord, status := .FAILED }) :: l2)) ∧
    (∀ actions : List (Nat × CreateOrder), (∀ b ∈ actions, b.1 ≠ cid) →
      handleAccepted cid ord orders actions =
        .error "no matching order action was found" ∧
      handleRejected cid ord orders actions =
        .error "no matching order action was found") := by
  constructor
  · intro l1 a l2 hl ha hord
    constructor
    · simp [handleAccepted, matchOrderAction_found .SUCCESS cid ord l1 a l2 hl ha hord]
    · simp [handleRejected, matchOrderAction_found .FAILED cid ord l1 a l2 hl ha hord]
  · intro actions hl
    constructor
    · simp [handleAccepted, matchOrderAction_missing .SUCCESS cid ord actions hl]
    · simp [handleRejected, matchOrderAction_missing .FAILED cid ord actions hl]

/-- A decoded Gemini order used in the C2 scenario (after test_gemini.py's
accepted fixture). -/
def exampleGeminiOrder : Order :=
  { order_id := "6310", price := 721, amount := 1, filled := 0, status := .OPEN }

/-- C2, witness: an accepted event with `client_order_id` 7 tags the single
recorded action of identity 7 with the decoded order and SUCCESS. -/
theorem C2_witness :
    handleAccepted 7 exampleGeminiOrder []
      [(7, CreateOrder.make "gemini" .BID .LIMIT 1 (some 721))] =
    .ok ([("6310", exampleGeminiOrder)],
      [(7, { exchange := "gemini", side := .BID, type := .LIMIT, amount := 1,
             price := some 721, order := some exampleGeminiOrder,
             status := .SUCCESS })]) := by
  exact ((C2_accept_reject_matching 7 exampleGeminiOrder []).1 []
    (7, CreateOrder.make "gemini" .BID .LIMIT 1 (some 721)) []
    (by simp) rfl rfl).1


/-! ## Gemini stream sequencing (gemini.py `_check_sequence`, `_process_heartbeat`) -/

/-- gemini.py `GeminiExchange.SocketInfo`: the per-connection counters. -/
structure SocketInfo where
  heartbeat_seq : Nat
  seq : Nat
  heartbeat_timestamp_ms : Option Int
deriving DecidableEq, Repr

/-- gemini.py `_check_sequence(response, socket_info)`: a subscription_ack is
exempt but must arrive while the expected sequence is still 0; any other
message must carry `socket_sequence` equal to the expected value, which then
increments. -/
def checkSequence (msgType : String) (socketSeq : Nat) (info : SocketInfo) :
    Except String SocketInfo :=
  if msgType = "subscription_ack" then
    if info.seq ≠ 0 then
      .error "subscription ack after the socket sequence started"
    else .ok info
  else if socketSeq ≠ info.seq then .error "missed a socket_sequence"
  else .ok { info with seq := info.seq + 1 }

/-- gemini.py `_process_heartbeat(response, socket_info)`: a non-heartbeat
response is an error; `socket_sequence` 0 is an error; the heartbeat's own
`sequence` must equal the expected heartbeat sequence, which then
increments, and the heartbeat timestamp is recorded. -/
def processHeartbeat (msgType : String) (timestampMs : Int)
    (heartbeatSeq socketSeq : Nat) (info : SocketInfo) :
    Except String SocketInfo :=
  if msgType ≠ "heartbeat" then .error "called for a non-heartbeat request"
  else if socketSeq = 0 then
    .error "heartbeat must not start the socket sequence"
  else if heartbeatSeq ≠ info.heartbeat_seq then
    .error "missed a heartbeat sequence"
  else .ok { info with heartbeat_seq := info.heartbeat_seq + 1,
                       heartbeat_timestamp_ms := some timestampMs }

/-- Processing a run of non-ack messages (socket sequences only; the message
type "update" stands for any non-ack type), propagating the first error, as
`_process_queue` does for the messages of one batch. -/
def checkSequenceList (info : SocketInfo) : List Nat → Except String SocketInfo
  | [] => .ok info
  | sq :: rest =>
    match checkSequence "update" sq info with
    | .error e => .error e
    | .ok info' => checkSequenceList info' rest

/-- Whether an Except value is a success. -/
def isOkE {α : Type} (e : Except String α) : Bool :=
  match e with
  | .ok _ => true
  | .error _ => false

theorem checkSequenceList_ok_iff (seqs : List Nat) : ∀ info : SocketInfo,
    isOkE (checkSequenceList info seqs) = true ↔
      seqs = List.range' info.seq seqs.length := by
  induction seqs with
  | nil => intro info; simp [checkSequenceList, isOkE]
  | cons sq rest ih =>
    intro info
    by_cases h : sq = info.seq
    · subst h
      have hc : checkSequence "update" info.seq info =
          .ok { info with seq := info.seq + 1 } := by
        simp [checkSequence]
      simp [checkSequenceList, hc, ih, List.range'_succ]
    · have hc : checkSequence "update" sq info =
          .error "missed a socket_sequence" := by
        simp [checkSequence, h]
      simp [checkSequenceList, hc, isOkE, List.range'_succ, h]

/-- C6: a non-ack message whose `socket_sequence` differs from the expected
value is fatal, and a matching one increments the expected value by exactly
1, so a run of non-ack messages is processed without error iff its socket
sequences are consecutive from the expected value (strictly increasing by
one); a subscription_ack is exempt from the check but fatal unless the
expected value is still 0; a heartbeat whose own `sequence` differs from
the expected heartbeat sequence, or whose `socket_sequence` is 0, is
fatal. -/
theorem C6_stream_sequencing (info : SocketInfo) :
    (∀ t sq, t ≠ "subscription_ack" → sq = info.seq →
      checkSequence t sq info = .ok { info with seq := info.seq + 1 }) ∧
    (∀ t sq, t ≠ "subscription_ack" → sq ≠ info.seq →
      checkSequence t sq info = .error "missed a socket_sequence") ∧
    (∀ sq, info.seq = 0 → checkSequence "subscription_ack" sq info = .ok info) ∧
    (∀ sq, info.seq ≠ 0 → checkSequence "subscription_ack" sq info =
      .error "subscription ack after the socket sequence started") ∧
    (∀ ts hs ssq, ssq ≠ 0 → hs = info.heartbeat_seq →
      processHeartbeat "heartbeat" ts hs ssq info =
        .ok { info with heartbeat_seq := info.heartbeat_seq + 1,
                        heartbeat_timestamp_ms := some ts }) ∧
    (∀ ts hs ssq, ssq ≠ 0 → hs ≠ info.heartbeat_seq →
      processHeartbeat "heartbeat" ts hs ssq info =
        .error "missed a heartbeat sequence") ∧
    (∀ ts hs, processHeartbeat "heartbeat" ts hs 0 info =
      .error "heartbeat must not start the socket sequence") ∧
    (∀ seqs : List Nat, isOkE (checkSequenceList info seqs) = true ↔
      seqs = List.range' info.seq seqs.length) := by
  refine ⟨?_, ?_, ?_, ?_, ?_, ?_, ?_, fun seqs => checkSequenceList_ok_iff seqs info⟩
  · intro t sq ht hsq; simp [checkSequence, ht, hsq]
  · intro t sq ht hsq; simp [checkSequence, ht, hsq]
  · intro sq h0; simp [checkSequence, h0]
  · intro sq h0; simp [checkSequence, h0]
  · intro ts hs ssq hssq hhs; simp [processHeartbeat, hssq, hhs]
  · intro ts hs ssq hssq hhs; simp [processHeartbeat, hssq, hhs]
  · intro ts hs; simp [processHeartbeat]

/-- C6, witness: concrete sequence checks at expected value 13, a valid
heartbeat, and an in-order run [7, 8, 9] from expected value 7. -/
theorem C6_witness :
    checkSequence "update" 13 ⟨0, 13, none⟩ = .ok ⟨0, 14, none⟩ ∧
    checkSequence "update" 14 ⟨0, 13, none⟩ =
      .error "missed a socket_sequence" ∧
    processHeartbeat "heartbeat" 123456789 0 10 ⟨0, 10, none⟩ =
      .ok ⟨1, 10, some 123456789⟩ ∧
    isOkE (checkSequenceList ⟨0, 7, none⟩ [7, 8, 9]) = true := by
  refine ⟨?_, ?_, ?_, ?_⟩
  · exact (C6_stream_sequencing ⟨0, 13, none⟩).1 "update" 13 (by decide) rfl
  · exact (C6_stream_sequencing ⟨0, 13, none⟩).2.1 "update" 14 (by decide) (by decide)
  · exact (C6_stream_sequencing ⟨0, 10, none⟩).2.2.2.2.1 123456789 0 10
      (by decide) rfl
  · exact ((C6_stream_sequencing ⟨0, 7, none⟩).2.2.2.2.2.2.2 [7, 8, 9]).mpr
      (by decide)


/-! ## Order book level updates (exchanges.py `OrderBook`) -/

/-- exchanges.py `OrderBook.set_bids_remaining(at_price, remaining)` over the
bids SortedDict, modelled as an association list with unique prices:
remaining 0 executes `del self._bids[at_price]`, which raises KeyError when
the price is absent; any other remaining assigns the value at the price. -/
def set_bids_remaining (bids : List (ℚ × ℚ)) (at_price remaining : ℚ) :
    Except String (List (ℚ × ℚ)) :=
  if remaining = 0 then
    if bids.any (fun e => decide (e.1 = at_price)) then
      .ok (bids.filter (fun e => e.1 ≠ at_price))
    else .error "KeyError"
  else .ok ((at_price, remaining) :: bids.filter (fun e => e.1 ≠ at_price))

/-- exchanges.py `OrderBook.set_asks_remaining(at_price, remaining)`: the
same code as `set_bids_remaining`, over the asks SortedDict. -/
def set_asks_remaining (asks : List (ℚ × ℚ)) (at_price remaining : ℚ) :
    Except String (List (ℚ × ℚ)) :=
  if remaining = 0 then
    if asks.any (fun e => decide (e.1 = at_price)) then
      .ok (asks.filter (fun e => e.1 ≠ at_price))
    else .error "KeyError"
  else .ok ((at_price, remaining) :: asks.filter (fun e => e.1 ≠ at_price))

/-- C7, counterexample to the claim as stated: setting a quote with
quantity 0 at a price absent from the side is NOT a silent no-op — the
`del` on the SortedDict raises KeyError on both sides. -/
theorem C7_counterexample :
    set_bids_remaining [] 10 0 = .error "KeyError" ∧
    set_asks_remaining [] 10 0 = .error "KeyError" := by
  constructor <;> norm_num [set_bids_remaining, set_asks_remaining]

/-- C7 (amended): for every price and either order-book side (the two
methods run the same code), setting a quote with nonzero quantity inserts
or replaces the level at that price and leaves all other levels unchanged;
setting quantity 0 with the level present deletes it (other levels
unchanged); setting quantity 0 with the level absent raises KeyError — it
is NOT the silent no-op the original claim states (see
`C7_counterexample`). -/
theorem C7_set_remaining (side : List (ℚ × ℚ)) (p q : ℚ) :
    (∀ s p' q', set_asks_remaining s p' q' = set_bids_remaining s p' q') ∧
    (q ≠ 0 → ∃ side', set_bids_remaining side p q = .ok side' ∧
      (p, q) ∈ side' ∧
      ∀ p' q', p' ≠ p → ((p', q') ∈ side' ↔ (p', q') ∈ side)) ∧
    ((∃ r, (p, r) ∈ side) → ∃ side',
      set_bids_remaining side p 0 = .ok side' ∧
      (∀ r, (p, r) ∉ side') ∧
      ∀ p' q', p' ≠ p → ((p', q') ∈ side' ↔ (p', q') ∈ side)) ∧
    ((∀ r, (p, r) ∉ side) → set_bids_remaining side p 0 = .error "KeyError") := by
  refine ⟨fun s p' q' => rfl, fun hq => ?_, fun hp => ?_, fun hp => ?_⟩
  · refine ⟨(p, q) :: side.filter (fun e => e.1 ≠ p), ?_, ?_, ?_⟩
    · simp [set_bids_remaining, hq]
    · simp
    · intro p' q' hne
      simp [List.mem_filter, hne]
  · have hany : side.any (fun e => decide (e.1 = p)) = true := by
      obtain ⟨r, hr⟩ := hp
      simp only [List.any_eq_true]
      exact ⟨(p, r), hr, by simp⟩
    refine ⟨side.filter (fun e => e.1 ≠ p), ?_, ?_, ?_⟩
    · simp [set_bids_remaining, hany]
    · intro r
      simp [List.mem_filter]
    · intro p' q' hne
      simp [List.mem_filter, hne]
  · have hany : side.any (fun e => decide (e.1 = p)) = false := by
      simp only [List.any_eq_false]
      intro e he
      rcases e with ⟨ep, eq⟩
      simp only [decide_eq_true_eq]
      intro hcontra
      exact hp eq (by simpa [hcontra] using he)
    simp [set_bids_remaining, hany]

/-- C7, witness: deleting the present level at price 10 and inserting a new
level at price 10 behave as the amended claim states. -/
theorem C7_witness :
    (∃ side', set_bids_remaining [(10, 2), (9, 1)] 10 0 = .ok side' ∧
      (∀ r, ((10 : ℚ), r) ∉ side') ∧
      ∀ p' q', p' ≠ 10 → ((p', q') ∈ side' ↔ (p', q') ∈
        ([(10, 2), (9, 1)] : List (ℚ × ℚ)))) ∧
    (∃ side', set_bids_remaining [(9, 1)] 10 3 = .ok side' ∧
      ((10 : ℚ), (3 : ℚ)) ∈ side' ∧
      ∀ p' q', p' ≠ 10 → ((p', q') ∈ side' ↔ (p', q') ∈
        ([(9, 1)] : List (ℚ × ℚ)))) := by
  constructor
  · exact (C7_set_remaining [(10, 2), (9, 1)] 10 0).2.2.1 ⟨2, by norm_num⟩
  · exact (C7_set_remaining [(9, 1)] 10 3).2.1 (by norm_num)

/-! ## Venue A heartbeat timing (gdax.py `_handle_heartbeat`) -/

/-- gdax.py `_handle_heartbeat`: parse the heartbeat time (modelled as
rational seconds), accept the first heartbeat unconditionally, and for every
later one require the delta to the previous heartbeat to lie within
[0.5 s, 1.5 s]; a strictly smaller or strictly larger delta raises.  The
result is the new `_last_heartbeat_time`. -/
def handleHeartbeat (heartbeatTime : ℚ) (lastHeartbeatTime : Option ℚ) :
    Except String ℚ :=
  match lastHeartbeatTime with
  | none => .ok heartbeatTime
  | some last =>
    if heartbeatTime - last < 1/2 ∨ (3/2 : ℚ) < heartbeatTime - last then
      .error "heartbeat delta out of range"
    else .ok heartbeatTime

/-- C9: for every pair of consecutive heartbeats, the handler raises iff
the delta between their parsed timestamps is strictly below 0.5 s or
strictly above 1.5 s; in particular 0.49 s and 1.51 s are fatal while
exactly 0.5 s and 1.5 s are accepted. -/
theorem C9_heartbeat_window (t last : ℚ) :
    (handleHeartbeat t (some last) = .error "heartbeat delta out of range" ↔
      (t - last < 1/2 ∨ 3/2 < t - last)) ∧
    (1/2 ≤ t - last → t - last ≤ 3/2 → handleHeartbeat t (some last) = .ok t) ∧
    handleHeartbeat (last + 49/100) (some last) =
      .error "heartbeat delta out of range" ∧
    handleHeartbeat (last + 151/100) (some last) =
      .error "heartbeat delta out of range" ∧
    handleHeartbeat (last + 1/2) (some last) = .ok (last + 1/2) ∧
    handleHeartbeat (last + 3/2) (some last) = .ok (last + 3/2) := by
  refine ⟨⟨fun he => ?_, fun h => ?_⟩, fun h1 h2 => ?_, ?_, ?_, ?_, ?_⟩
  · by_cases h : t - last < 1/2 ∨ (3/2 : ℚ) < t - last
    · exact h
    · simp only [handleHeartbeat] at he
      rw [if_neg h] at he
      exact absurd he (by simp)
  · simp only [handleHeartbeat]
    rw [if_pos h]
  · have h : ¬(t - last < 1/2 ∨ (3/2 : ℚ) < t - last) := by
      push_neg
      constructor <;> linarith
    simp only [handleHeartbeat]
    rw [if_neg h]
  · have h : (last + 49/100) - last < 1/2 ∨ (3/2 : ℚ) < (last + 49/100) - last :=
      Or.inl (by linarith)
    simp only [handleHeartbeat]
    rw [if_pos h]
  · have h : (last + 151/100) - last < 1/2 ∨ (3/2 : ℚ) < (last + 151/100) - last :=
      Or.inr (by linarith)
    simp only [handleHeartbeat]
    rw [if_pos h]
  · have h : ¬((last + 1/2) - last < 1/2 ∨ (3/2 : ℚ) < (last + 1/2) - last) := by
      push_neg
      constructor <;> linarith
    simp only [handleHeartbeat]
    rw [if_neg h]
  · have h : ¬((last + 3/2) - last < 1/2 ∨ (3/2 : ℚ) < (last + 3/2) - last) := by
      push_neg
      constructor <;> linarith
    simp only [handleHeartbeat]
    rw [if_neg h]

/-! ## Publisher wiring (exchanges.py `Publisher`, arbitrage.py callbacks) -/

/-- exchanges.py `Publisher`: the registered callbacks are kept in a Python
set, modelled as a `Finset` of callback identities. -/
structure Publisher where
  update_callbacks : Finset Nat

/-- exchanges.py `Publisher.add_callback`: set insertion. -/
def Publisher.add_callback (p : Publisher) (cb : Nat) : Publisher :=
  ⟨insert cb p.update_callbacks⟩

/-- How many times `Publisher.notify` invokes a given callback in one
notification: `notify` iterates the set once, so a member is called exactly
once and a non-member never. -/
def Publisher.notifyCount (p : Publisher) (cb : Nat) : Nat :=
  if cb ∈ p.update_callbacks then 1 else 0

/-- arbitrage.py `OneWayPairArbitrage.initialize`, restricted to its
callback registrations: it calls `add_callback(self.on_update)` twice, both
times on the BUY venue's update publisher, and never touches the sell
venue's publisher. -/
def registerStrategyCallbacks (buyPub sellPub : Publisher) (onUpdate : Nat) :
    Publisher × Publisher :=
  ((buyPub.add_callback onUpdate).add_callback onUpdate, sellPub)

/-- C10: `initialize` registers `on_update` only on the buy venue's update
publisher — adding it twice leaves a set in which it occurs once, so one
notification invokes it exactly once — and the sell venue's publisher is
unchanged, so a sell-venue update alone never invokes the callback when it
was not already registered there. -/
theorem C10_callback_wiring (buyPub sellPub : Publisher) (onUpdate : Nat) :
    (registerStrategyCallbacks buyPub sellPub onUpdate).1.update_callbacks =
      insert onUpdate buyPub.update_callbacks ∧
    (registerStrategyCallbacks buyPub sellPub onUpdate).1.notifyCount onUpdate = 1 ∧
    (registerStrategyCallbacks buyPub sellPub onUpdate).2 = sellPub ∧
    (onUpdate ∉ sellPub.update_callbacks →
      (registerStrategyCallbacks buyPub sellPub onUpdate).2.notifyCount onUpdate
        = 0) := by
  refine ⟨?_, ?_, rfl, fun h => ?_⟩
  · simp [registerStrategyCallbacks, Publisher.add_callback]
  · simp [registerStrategyCallbacks, Publisher.add_callback, Publisher.notifyCount]
  · simp [registerStrategyCallbacks, Publisher.notifyCount, h]


/-! ## Venue A snapshot handling (gdax.py `_handle_snapshot`) -/

/-- Modelled from the spec: `SortedQuotes.set_quote(price, qty)` of the
Quote-based order book that gdax.py uses (`order_book().bids().set_quote`);
the class itself is not among the repository sources.  Per the spec:
quantity 0 deletes the level (a silent no-op when absent), any other
quantity inserts or replaces the level at that price. -/
def set_quote (side : List Quote) (q : Quote) : List Quote :=
  let removed := side.filter (fun e => e.price ≠ q.price)
  if q.quantity = 0 then removed else q :: removed

/-- The two sides of the Quote-based gdax order book. -/
structure GdaxOrderBook where
  bids : List Quote
  asks : List Quote
deriving DecidableEq, Repr

/-- gdax.py `_handle_snapshot`: apply `set_quote` to every bid level and
every ask level listed in the snapshot, then set the `order_book_ready`
event (the returned Bool).  The handler never clears the book first. -/
def handleSnapshot (book : GdaxOrderBook) (snapBids snapAsks : List Quote) :
    GdaxOrderBook × Bool :=
  ({ bids := snapBids.foldl set_quote book.bids,
     asks := snapAsks.foldl set_quote book.asks }, true)

theorem mem_set_quote (side : List Quote) (q x : Quote) (hq : q.quantity ≠ 0) :
    x ∈ set_quote side q ↔ x = q ∨ (x ∈ side ∧ x.price ≠ q.price) := by
  simp only [set_quote, hq, if_neg, ite_false, List.mem_cons, List.mem_filter,
    decide_eq_true_eq]

theorem mem_foldl_set_quote (snap : List Quote) : ∀ (book : List Quote)
    (x : Quote), (snap.map Quote.price).Nodup →
    (∀ b ∈ snap, b.quantity ≠ 0) →
    (x ∈ snap.foldl set_quote book ↔
      x ∈ snap ∨ (x ∈ book ∧ x.price ∉ snap.map Quote.price)) := by
  induction snap with
  | nil => intro book x _ _; simp
  | cons s t ih =>
    intro book x hnd hq
    have hsp : s.price ∉ t.map Quote.price := by
      have := hnd
      simp only [List.map_cons, List.nodup_cons] at this
      exact this.1
    have hnd' : (t.map Quote.price).Nodup := by
      simp only [List.map_cons, List.nodup_cons] at hnd
      exact hnd.2
    have hq' : ∀ b ∈ t, b.quantity ≠ 0 := fun b hb => hq b (by simp [hb])
    have hqs : s.quantity ≠ 0 := hq s (by simp)
    rw [List.foldl_cons, ih (set_quote book s) x hnd' hq']
    rw [mem_set_quote book s x hqs]
    constructor
    · rintro (hx | ⟨hx | ⟨hxb, hxp⟩, hnp⟩)
      · exact Or.inl (by simp [hx])
      · exact Or.inl (by simp [hx])
      · refine Or.inr ⟨hxb, ?_⟩
        simp only [List.map_cons, List.mem_cons]
        rintro (h | h)
        · exact hxp h
        · exact hnp h
    · rintro (hx | ⟨hxb, hxp⟩)
      · rcases List.mem_cons.mp hx with h | h
        · subst h
          exact Or.inr ⟨Or.inl rfl, hsp⟩
        · exact Or.inl h
      · simp only [List.map_cons, List.mem_cons, not_or] at hxp
        exact Or.inr ⟨Or.inr ⟨hxb, hxp.1⟩, hxp.2⟩

/-- C8 (amended): handling a snapshot applies `set_quote` for every listed
bid and ask level and sets the `order_book_ready` event; on an empty book
this seeds both sides with exactly the snapshot levels, but on an already
populated book the levels are MERGED: a pre-existing level whose price the
snapshot does not list remains (the handler never clears the book), against
the original claim's "replaces the book entirely" (see
`C8_counterexample`). -/
theorem C8_snapshot_merges (book : GdaxOrderBook) (snapBids snapAsks : List Quote)
    (hBnd : (snapBids.map Quote.price).Nodup)
    (hBq : ∀ b ∈ snapBids, b.quantity ≠ 0)
    (hAnd : (snapAsks.map Quote.price).Nodup)
    (hAq : ∀ a ∈ snapAsks, a.quantity ≠ 0) :
    (handleSnapshot book snapBids snapAsks).2 = true ∧
    (∀ x : Quote, x ∈ (handleSnapshot book snapBids snapAsks).1.bids ↔
      x ∈ snapBids ∨ (x ∈ book.bids ∧ x.price ∉ snapBids.map Quote.price)) ∧
    (∀ x : Quote, x ∈ (handleSnapshot book snapBids snapAsks).1.asks ↔
      x ∈ snapAsks ∨ (x ∈ book.asks ∧ x.price ∉ snapAsks.map Quote.price)) ∧
    (book.bids = [] → book.asks = [] →
      ((∀ x : Quote, x ∈ (handleSnapshot book snapBids snapAsks).1.bids ↔
          x ∈ snapBids) ∧
       (∀ x : Quote, x ∈ (handleSnapshot book snapBids snapAsks).1.asks ↔
          x ∈ snapAsks))) := by
  refine ⟨rfl, fun x => ?_, fun x => ?_, fun hb ha => ⟨fun x => ?_, fun x => ?_⟩⟩
  · exact mem_foldl_set_quote snapBids book.bids x hBnd hBq
  · exact mem_foldl_set_quote snapAsks book.asks x hAnd hAq
  · rw [show (handleSnapshot book snapBids snapAsks).1.bids =
        snapBids.foldl set_quote book.bids from rfl,
      mem_foldl_set_quote snapBids book.bids x hBnd hBq, hb]
    simp
  · rw [show (handleSnapshot book snapBids snapAsks).1.asks =
        snapAsks.foldl set_quote book.asks from rfl,
      mem_foldl_set_quote snapAsks book.asks x hAnd hAq, ha]
    simp

/-- C8, counterexample to the claim as stated: a snapshot listing only a
bid at price 6, applied to a book already holding a bid at price 5, leaves
the level at price 5 in place although the snapshot does not list it. -/
theorem C8_counterexample :
    handleSnapshot { bids := [⟨5, 1⟩], asks := [] } [⟨6, 2⟩] [] =
      ({ bids := [⟨6, 2⟩, ⟨5, 1⟩], asks := [] }, true) ∧
    (⟨5, 1⟩ : Quote) ∈ (handleSnapshot { bids := [⟨5, 1⟩], asks := [] }
      [⟨6, 2⟩] []).1.bids ∧
    (∀ q ∈ ([⟨6, 2⟩] : List Quote), q.price ≠ 5) := by
  refine ⟨?_, ?_, ?_⟩
  · norm_num [handleSnapshot, set_quote]
  · norm_num [handleSnapshot, set_quote]
  · intro q hq
    simp only [List.mem_singleton] at hq
    subst hq
    norm_num

/-- C8, witness: a snapshot applied to an empty book seeds both sides and
sets the ready event. -/
theorem C8_witness :
    ((handleSnapshot { bids := [], asks := [] } [⟨6, 2⟩, ⟨5, 1⟩] [⟨7, 3⟩]).2
      = true) ∧
    ((⟨6, 2⟩ : Quote) ∈ (handleSnapshot { bids := [], asks := [] }
      [⟨6, 2⟩, ⟨5, 1⟩] [⟨7, 3⟩]).1.bids) ∧
    ((⟨7, 3⟩ : Quote) ∈ (handleSnapshot { bids := [], asks := [] }
      [⟨6, 2⟩, ⟨5, 1⟩] [⟨7, 3⟩]).1.asks) := by
  have h := C8_snapshot_merges { bids := [], asks := [] } [⟨6, 2⟩, ⟨5, 1⟩]
    [⟨7, 3⟩] (by norm_num) (by intro b hb; fin_cases hb <;> norm_num)
    (by norm_num) (by intro a ha; fin_cases ha; norm_num)
  refine ⟨h.1, ?_, ?_⟩
  · exact (h.2.1 ⟨6, 2⟩).mpr (Or.inl (by simp))
  · exact (h.2.2.1 ⟨7, 3⟩).mpr (Or.inl (by simp))


end Kohuhu
